import Mathlib

/-!
Verification of the gesture state machine in
`src/components/gallery/Reflection.tsx` of react-native-zoom-toolkit.

The embedding models the shared animatable state of the gallery as a record
of rational values and each gesture handler as a pure state-transition
function translated from the source.  The animation runtime
(`withTiming` / `withDecay`) is an external collaborator per the spec, so
animated assignments are modelled by their settled values: an assignment
`v.value = withTiming(x, _, cb)` is modelled as `v := x` followed by the
effects of `cb`, and a `withDecay(config)` assignment is modelled by
recording the decay configuration that was handed to the runtime.
-/

namespace Gallery

/-- A 2-d vector of rationals, mirroring the `Vector` shared-value pairs
(`useVector`) of the source. -/
structure Vec where
  x : ℚ
  y : ℚ
deriving DecidableEq, Repr

/-- A width/height pair, mirroring `SizeVector` in the source. -/
structure SizeVector where
  width : ℚ
  height : ℚ
deriving DecidableEq, Repr

/-- The fields of a pan gesture event read by the handlers. -/
structure PanGestureEvent where
  translationX : ℚ
  translationY : ℚ
  velocityX : ℚ
  velocityY : ℚ
  absoluteX : ℚ
  absoluteY : ℚ
deriving DecidableEq, Repr

/-- The fields of a tap gesture event read by the double-tap handler. -/
structure TapGestureEvent where
  x : ℚ
  y : ℚ
deriving DecidableEq, Repr

/-- The enum `SwipeDirection` from `commons/types`. -/
inductive SwipeDirection where
  | up
  | down
  | left
  | right
deriving DecidableEq, Repr

/-- The props of the `Reflection` component used by the modelled handlers:
`length`, `vertical`, `maxScale` and `itemSize` (the shared values among
them are treated as constant during a gesture). -/
structure ReflectionConfig where
  length : ℤ
  vertical : Bool
  maxScale : ℚ
  itemSize : ℚ
deriving DecidableEq, Repr

/-- The shared animatable state owned by the gallery context together with
the local shared values of `Reflection` (`offset`, `detectorTranslate`,
`detectorScale`, `time`, `position`, `isPullingVertical`, `pullReleased`). -/
structure GalleryState where
  activeIndex : ℤ
  fetchIndex : ℤ
  scroll : ℚ
  scrollOffset : ℚ
  isScrolling : Bool
  rootSize : SizeVector
  rootChildSize : SizeVector
  translate : Vec
  scale : ℚ
  offset : Vec
  detectorTranslate : Vec
  detectorScale : ℚ
  time : ℚ
  position : Vec
  isPullingVertical : Bool
  pullReleased : Bool
deriving DecidableEq, Repr

/-- Modelled from the spec: the pure-math utility `clamp` named in the
spec but absent from `src/` (only its callers are present).
`clamp(value, lowerBound, upperBound) = Math.max(lowerBound,
Math.min(value, upperBound))`. -/
def clamp {α : Type} [LinearOrder α] (value lowerBound upperBound : α) : α :=
  max lowerBound (min value upperBound)

/-- The function `Math.sign` on rationals (the gesture maths never produces `NaN`). -/
def mathSign (q : ℚ) : ℚ :=
  if 0 < q then 1 else if q < 0 then -1 else 0

/-- The `minScale` constant of `Reflection.tsx`. -/
def minScale : ℚ := 1

/-- The function `boundsFn` of `Reflection.tsx` (lines 101-110): half the excess of the
scaled child size over the root size, floored at zero, on each axis. -/
def boundsFn (st : GalleryState) (scaleValue : ℚ) : ℚ × ℚ :=
  let cWidth := st.rootChildSize.width
  let cHeight := st.rootChildSize.height
  let rWidth := st.rootSize.width
  let rHeight := st.rootSize.height
  let boundX := max 0 (cWidth * scaleValue - rWidth) / 2
  let boundY := max 0 (cHeight * scaleValue - rHeight) / 2
  (boundX, boundY)

/-- The worklet `reset` of `Reflection.tsx` (lines 112-130), settled semantics: the
writes of lines 120-122 copy the rendered transform into the detector
transform and are then overwritten by lines 124-129, which give both
transforms the targets `(toX, toY, toScale)`; the settled state therefore
holds the targets in all six fields.  The `animate` flag only chooses
between a timing animation and a direct write of the same targets. -/
def reset (st : GalleryState) (toX toY toScale : ℚ) : GalleryState :=
  { st with
    translate := ⟨toX, toY⟩
    scale := toScale
    detectorTranslate := ⟨toX, toY⟩
    detectorScale := toScale }

/-- The handler `pan.onStart` of `Reflection.tsx` (lines 226-244).  `performance.now()`
is an external input, passed as `now`; the `cancelAnimation` calls and the
`onPanStart` user callback have no effect on the modelled state. -/
def panStart (cfg : ReflectionConfig) (st : GalleryState)
    (e : PanGestureEvent) (now : ℚ) : GalleryState :=
  { st with
    isPullingVertical :=
      decide (|e.velocityY| > |e.velocityX|) && decide (st.scale = 1) &&
        !cfg.vertical
    isScrolling := true
    time := now
    position := ⟨e.absoluteX, e.absoluteY⟩
    scrollOffset := st.scroll
    offset := ⟨st.translate.x, st.translate.y⟩ }

/-- The handler `pan.onUpdate` of `Reflection.tsx` (lines 245-270).  While a vertical
pull is in progress only `translate.y` is written (raw `translationY`);
otherwise `scroll` absorbs the excess over the bounds and the rendered and
detector translations are both written clamped to `boundsFn(scale)`. -/
def panUpdate (cfg : ReflectionConfig) (st : GalleryState)
    (e : PanGestureEvent) : GalleryState :=
  if st.isPullingVertical then
    { st with translate := ⟨st.translate.x, e.translationY⟩ }
  else
    let toX := st.offset.x + e.translationX
    let toY := st.offset.y + e.translationY
    let bounds := boundsFn st st.scale
    let exceedX := max 0 (|toX| - bounds.1)
    let exceedY := max 0 (|toY| - bounds.2)
    let scrollX := -1 * mathSign toX * exceedX
    let scrollY := -1 * mathSign toY * exceedY
    { st with
      scroll :=
        clamp (st.scrollOffset + (if cfg.vertical then scrollY else scrollX))
          0 (((cfg.length : ℚ) - 1) * cfg.itemSize)
      translate :=
        ⟨clamp toX (-1 * bounds.1) bounds.1, clamp toY (-1 * bounds.2) bounds.2⟩
      detectorTranslate :=
        ⟨clamp toX (-1 * bounds.1) bounds.1, clamp toY (-1 * bounds.2) bounds.2⟩ }

/-- A `withDecay` configuration: the velocity and the clamp interval handed
to the animation runtime. -/
structure DecayConfig where
  velocity : ℚ
  clampLo : ℚ
  clampHi : ℚ
deriving DecidableEq, Repr

/-- The four decay configurations written by `pan.onEnd` (lines 308-314),
in source order: `translate.x`, `translate.y`, `detectorTranslate.x`,
`detectorTranslate.y`. -/
structure PanEndDecay where
  translateX : DecayConfig
  translateY : DecayConfig
  detectorTranslateX : DecayConfig
  detectorTranslateY : DecayConfig
deriving DecidableEq, Repr

/-- The decay animations started by `pan.onEnd` of `Reflection.tsx`
(lines 271-315): when a vertical pull is in progress the handler returns
at line 293 before any decay starts (`none`); otherwise `configX` is
handed to both `translate.x` and `detectorTranslate.x` and `configY` to
both `translate.y` and `detectorTranslate.y`, each clamped to
`boundsFn(scale)` computed at line 272. -/
def panEndDecay (st : GalleryState) (e : PanGestureEvent) :
    Option PanEndDecay :=
  if st.isPullingVertical then none
  else
    let bounds := boundsFn st st.scale
    let configX : DecayConfig := ⟨e.velocityX, -bounds.1, bounds.1⟩
    let configY : DecayConfig := ⟨e.velocityY, -bounds.2, bounds.2⟩
    some ⟨configX, configY, configX, configY⟩

/-- The direction-adjusted target index of `onSwipe` (lines 155-161),
before and after clamping. -/
def swipeToIndex (cfg : ReflectionConfig) (st : GalleryState)
    (direction : SwipeDirection) : ℤ :=
  let t1 := if direction = SwipeDirection.up ∧ cfg.vertical then
    st.activeIndex + 1 else st.activeIndex
  let t2 := if direction = SwipeDirection.down ∧ cfg.vertical then
    t1 - 1 else t1
  let t3 := if direction = SwipeDirection.left ∧ ¬cfg.vertical then
    t2 + 1 else t2
  let t4 := if direction = SwipeDirection.right ∧ ¬cfg.vertical then
    t3 - 1 else t3
  clamp t4 0 (cfg.length - 1)

/-- The worklet `onSwipe` of `Reflection.tsx` (lines 152-170), settled semantics: when
the clamped target equals `activeIndex` the handler returns early;
otherwise `fetchIndex` is set, `scroll` is animated to
`toIndex * itemSize`, and the timing callback then sets `activeIndex`,
clears `isScrolling` and resets the transform to `(0, 0, minScale)`. -/
def onSwipe (cfg : ReflectionConfig) (st : GalleryState)
    (direction : SwipeDirection) : GalleryState :=
  let toIndex := swipeToIndex cfg st direction
  if toIndex = st.activeIndex then st
  else
    reset
      { st with
        fetchIndex := toIndex
        scroll := (toIndex : ℚ) * cfg.itemSize
        activeIndex := toIndex
        isScrolling := false }
      0 0 minScale

/-- The function `Math.min` applied to a non-empty list of rationals (empty lists do
not occur in the modelled calls; `0` is a dummy value). -/
def listMin : List ℚ → ℚ
  | [] => 0
  | q :: qs => qs.foldl min q

/-- Modelled from the spec: the pure-math utility `snapPoint` named in the
spec but absent from `src/` (only its caller `snapToScrollPosition` is
present).  It projects the value by a fifth of the velocity and returns
the candidate point closest to the projection:
`point = value + 0.2 * velocity`, the candidate of minimal
`|point - candidate|` (ties resolved in list order). -/
def snapPoint (value velocity : ℚ) (points : List ℚ) : ℚ :=
  let point := value + 2 / 10 * velocity
  let deltas := points.map (fun p => |point - p|)
  let minDelta := listMin deltas
  (points.filter (fun p => decide (|point - p| = minDelta))).headD 0

/-- The three candidate scroll offsets `prev`, `current`, `next` computed
by `snapToScrollPosition` (lines 135-137): the item offsets of the
neighbouring indices clamped to `[0, length - 1]` and of the active
index. -/
def snapCandidates (cfg : ReflectionConfig) (st : GalleryState) : List ℚ :=
  [cfg.itemSize * ((clamp (st.activeIndex - 1) 0 (cfg.length - 1) : ℤ) : ℚ),
   cfg.itemSize * (st.activeIndex : ℚ),
   cfg.itemSize * ((clamp (st.activeIndex + 1) 0 (cfg.length - 1) : ℤ) : ℚ)]

/-- The scroll target `toScroll` chosen by `snapToScrollPosition`
(lines 139-140): `snapPoint` applied to the current scroll, the velocity
along the gallery axis, and the three candidates. -/
def snapTarget (cfg : ReflectionConfig) (st : GalleryState)
    (e : PanGestureEvent) : ℚ :=
  snapPoint st.scroll (if cfg.vertical then e.velocityY else e.velocityX)
    (snapCandidates cfg st)

/-- The worklet `snapToScrollPosition` of `Reflection.tsx` (lines 132-150), settled
semantics: `snapPoint` picks the scroll target among the offsets of the
previous, current and next item; `fetchIndex` moves by one only when the
target is not the current offset; the timing callback then copies
`fetchIndex` into `activeIndex`, clears `isScrolling` and, when the target
moved, resets the transform. -/
def snapToScrollPosition (cfg : ReflectionConfig) (st : GalleryState)
    (e : PanGestureEvent) : GalleryState :=
  let index := st.activeIndex
  let current := cfg.itemSize * (index : ℚ)
  let next := cfg.itemSize * ((clamp (index + 1) 0 (cfg.length - 1) : ℤ) : ℚ)
  let toScroll := snapTarget cfg st e
  let fetched :=
    if toScroll ≠ current then
      index + (if toScroll = next then 1 else -1)
    else st.fetchIndex
  let settled :=
    { st with
      fetchIndex := fetched
      scroll := toScroll
      activeIndex := fetched
      isScrolling := false }
  if toScroll ≠ current then reset settled 0 0 minScale else settled

/-- The `useAnimatedReaction` of `Reflection.tsx` (lines 172-184) that
drives `onVerticalPull`: the invocation the reaction makes, as
`some (translate.y, pullReleased)` when `shouldPull` holds and `none`
otherwise. -/
def verticalPullReaction (cfg : ReflectionConfig) (st : GalleryState) :
    Option (ℚ × Bool) :=
  if ¬cfg.vertical = true ∧ st.scale = 1 ∧ st.isPullingVertical = true then
    some (st.translate.y, st.pullReleased)
  else none

/-- Modelled from the spec: the pure-math utility `pinchTransform` named
in the spec but absent from `src/` (only its callers are present).  It
maps an offset under a scale change about `origin` with pan `delta`:
the translation that keeps `origin` fixed while the scale moves from
`fromScale` to `toScale`. -/
def pinchTransform (toScale fromScale : ℚ) (origin delta offset : Vec) :
    Vec :=
  let fromPinchX := -1 * (origin.x * fromScale - origin.x)
  let fromPinchY := -1 * (origin.y * fromScale - origin.y)
  let toPinchX := -1 * (origin.x * toScale - origin.x)
  let toPinchY := -1 * (origin.y * toScale - origin.y)
  ⟨offset.x + toPinchX - fromPinchX + delta.x,
   offset.y + toPinchY - fromPinchY + delta.y⟩

/-- The target scale `toScale` of `doubleTap.onEnd` (lines 369-370):
`minScale` when the current scale has reached `0.8 * maxScale`,
`maxScale` otherwise. -/
def doubleTapToScale (cfg : ReflectionConfig) (st : GalleryState) : ℚ :=
  if st.scale ≥ cfg.maxScale * (8 / 10) then minScale else cfg.maxScale

/-- The handler `doubleTap.onEnd` of `Reflection.tsx` (lines 362-384): the target
scale toggles between `maxScale` and `minScale` at the `0.8 * maxScale`
threshold, and `reset` receives the `pinchTransform` translation clamped
to `boundsFn(toScale)`. -/
def doubleTapEnd (cfg : ReflectionConfig) (st : GalleryState)
    (e : TapGestureEvent) : GalleryState :=
  let originX := e.x - st.rootSize.width / 2
  let originY := e.y - st.rootSize.height / 2
  let toScale := doubleTapToScale cfg st
  let p := pinchTransform toScale st.scale ⟨originX, originY⟩ ⟨0, 0⟩
    ⟨st.translate.x, st.translate.y⟩
  let bounds := boundsFn st toScale
  let toX := clamp p.x (-1 * bounds.1) bounds.1
  let toY := clamp p.y (-1 * bounds.2) bounds.2
  reset st toX toY toScale

/-- Concrete horizontal-gallery configuration used by the witnesses. -/
def cfg0 : ReflectionConfig :=
  { length := 3, vertical := false, maxScale := 3, itemSize := 100 }

/-- Concrete resting state used by the witnesses. -/
def st0 : GalleryState :=
  { activeIndex := 0
    fetchIndex := 0
    scroll := 0
    scrollOffset := 0
    isScrolling := false
    rootSize := ⟨100, 200⟩
    rootChildSize := ⟨100, 200⟩
    translate := ⟨0, 0⟩
    scale := 1
    offset := ⟨0, 0⟩
    detectorTranslate := ⟨0, 0⟩
    detectorScale := 1
    time := 0
    position := ⟨0, 0⟩
    isPullingVertical := false
    pullReleased := false }

/-- The state `st0` with a vertical pull in progress. -/
def stPull : GalleryState := { st0 with isPullingVertical := true }

/-- Concrete pan gesture event used by the witnesses. -/
def e0 : PanGestureEvent :=
  { translationX := 10
    translationY := 5
    velocityX := 3
    velocityY := 7
    absoluteX := 1
    absoluteY := 2 }

/-- The lower bound never exceeds a clamped value. -/
theorem le_clamp {α : Type} [LinearOrder α] (value lowerBound upperBound : α) :
    lowerBound ≤ clamp value lowerBound upperBound :=
  le_max_left _ _

/-- A clamped value never exceeds the upper bound, provided the interval
is non-degenerate. -/
theorem clamp_le {α : Type} [LinearOrder α] (value lowerBound upperBound : α)
    (h : lowerBound ≤ upperBound) :
    clamp value lowerBound upperBound ≤ upperBound :=
  max_le h (min_le_right _ _)

/-- The horizontal bound of `boundsFn` is non-negative. -/
theorem boundsFn_fst_nonneg (st : GalleryState) (s : ℚ) :
    0 ≤ (boundsFn st s).1 := by
  simp only [boundsFn]
  positivity

/-- The vertical bound of `boundsFn` is non-negative. -/
theorem boundsFn_snd_nonneg (st : GalleryState) (s : ℚ) :
    0 ≤ (boundsFn st s).2 := by
  simp only [boundsFn]
  positivity

/-- The function `Math.min` of a non-empty list is one of its elements. -/
theorem listMin_mem (q : ℚ) (qs : List ℚ) : listMin (q :: qs) ∈ q :: qs := by
  induction qs generalizing q with
  | nil => simp [listMin]
  | cons r rs ih =>
    have hstep : listMin (q :: r :: rs) = listMin (min q r :: rs) := rfl
    rw [hstep]
    rcases List.mem_cons.mp (ih (min q r)) with h3 | h3
    · rcases min_choice q r with h4 | h4
      · exact List.mem_cons.mpr (Or.inl (h3.trans h4))
      · exact List.mem_cons.mpr
          (Or.inr (List.mem_cons.mpr (Or.inl (h3.trans h4))))
    · exact List.mem_cons.mpr (Or.inr (List.mem_cons.mpr (Or.inr h3)))

/-- The default head of a filtered list is an element of the original list
whenever some element passes the filter. -/
theorem filter_headD_mem (l : List ℚ) (f : ℚ → Bool)
    (h : ∃ x ∈ l, f x = true) : (l.filter f).headD 0 ∈ l := by
  have hne : l.filter f ≠ [] := by
    rcases h with ⟨x, hx, hfx⟩
    intro hnil
    have hmem : x ∈ l.filter f := List.mem_filter.mpr ⟨hx, hfx⟩
    rw [hnil] at hmem
    exact (List.not_mem_nil x) hmem
  cases hf : l.filter f with
  | nil => exact absurd hf hne
  | cons a as =>
    have hmem : a ∈ l.filter f := by
      rw [hf]
      exact List.mem_cons_self a as
    have := List.mem_filter.mp hmem
    simpa [hf] using this.1

/-- The function `snapPoint` always returns one of the candidate points when there is
at least one candidate. -/
theorem snapPoint_mem (value velocity q : ℚ) (qs : List ℚ) :
    snapPoint value velocity (q :: qs) ∈ q :: qs := by
  simp only [snapPoint]
  apply filter_headD_mem
  have h1 : listMin ((q :: qs).map
        (fun p => |value + 2 / 10 * velocity - p|))
      ∈ (q :: qs).map (fun p => |value + 2 / 10 * velocity - p|) := by
    rw [List.map_cons]
    exact listMin_mem _ _
  rcases List.mem_map.mp h1 with ⟨p, hp, hfp⟩
  exact ⟨p, hp, decide_eq_true hfp⟩

/-- C8: for every scale value and every root/child size, `boundsFn`
returns non-negative bounds, and when the scaled child fits inside the
root along an axis the bound on that axis is exactly `0`, pinning that
axis to the centre. -/
theorem boundsFn_nonneg_and_centering (st : GalleryState) (s : ℚ) :
    (0 ≤ (boundsFn st s).1 ∧ 0 ≤ (boundsFn st s).2) ∧
    (st.rootChildSize.width * s ≤ st.rootSize.width →
      (boundsFn st s).1 = 0) ∧
    (st.rootChildSize.height * s ≤ st.rootSize.height →
      (boundsFn st s).2 = 0) := by
  refine ⟨⟨boundsFn_fst_nonneg st s, boundsFn_snd_nonneg st s⟩, ?_, ?_⟩
  · intro h
    simp only [boundsFn]
    rw [max_eq_left (by linarith)]
    norm_num
  · intro h
    simp only [boundsFn]
    rw [max_eq_left (by linarith)]
    norm_num

/-- Witness for C8 at `st0` and scale `1`, where the child exactly fills
the root on both axes. -/
theorem boundsFn_nonneg_and_centering_witness :
    (0 ≤ (boundsFn st0 1).1 ∧ 0 ≤ (boundsFn st0 1).2) ∧
    (boundsFn st0 1).1 = 0 ∧ (boundsFn st0 1).2 = 0 :=
  ⟨(boundsFn_nonneg_and_centering st0 1).1,
   (boundsFn_nonneg_and_centering st0 1).2.1 (by norm_num [st0]),
   (boundsFn_nonneg_and_centering st0 1).2.2 (by norm_num [st0])⟩

/-- C1: for every pan update while no vertical pull is in progress, the
handler writes `translate` and `detectorTranslate` equal to the gesture
translation clamped to `[-boundX, boundX] × [-boundY, boundY]` where the
bounds are `boundsFn` at the current scale, so the written translation
stays within the bounds. -/
theorem panUpdate_writes_clamped (cfg : ReflectionConfig)
    (st : GalleryState) (e : PanGestureEvent)
    (h : st.isPullingVertical = false) :
    (panUpdate cfg st e).translate.x
      = clamp (st.offset.x + e.translationX)
          (-1 * (boundsFn st st.scale).1) (boundsFn st st.scale).1 ∧
    (panUpdate cfg st e).translate.y
      = clamp (st.offset.y + e.translationY)
          (-1 * (boundsFn st st.scale).2) (boundsFn st st.scale).2 ∧
    (panUpdate cfg st e).detectorTranslate.x
      = clamp (st.offset.x + e.translationX)
          (-1 * (boundsFn st st.scale).1) (boundsFn st st.scale).1 ∧
    (panUpdate cfg st e).detectorTranslate.y
      = clamp (st.offset.y + e.translationY)
          (-1 * (boundsFn st st.scale).2) (boundsFn st st.scale).2 ∧
    -1 * (boundsFn st st.scale).1 ≤ (panUpdate cfg st e).translate.x ∧
    (panUpdate cfg st e).translate.x ≤ (boundsFn st st.scale).1 ∧
    -1 * (boundsFn st st.scale).2 ≤ (panUpdate cfg st e).translate.y ∧
    (panUpdate cfg st e).translate.y ≤ (boundsFn st st.scale).2 := by
  have hbx := boundsFn_fst_nonneg st st.scale
  have hby := boundsFn_snd_nonneg st st.scale
  have e1 : (panUpdate cfg st e).translate.x
      = clamp (st.offset.x + e.translationX)
          (-1 * (boundsFn st st.scale).1) (boundsFn st st.scale).1 := by
    simp [panUpdate, h]
  have e2 : (panUpdate cfg st e).translate.y
      = clamp (st.offset.y + e.translationY)
          (-1 * (boundsFn st st.scale).2) (boundsFn st st.scale).2 := by
    simp [panUpdate, h]
  have e3 : (panUpdate cfg st e).detectorTranslate.x
      = clamp (st.offset.x + e.translationX)
          (-1 * (boundsFn st st.scale).1) (boundsFn st st.scale).1 := by
    simp [panUpdate, h]
  have e4 : (panUpdate cfg st e).detectorTranslate.y
      = clamp (st.offset.y + e.translationY)
          (-1 * (boundsFn st st.scale).2) (boundsFn st st.scale).2 := by
    simp [panUpdate, h]
  refine ⟨e1, e2, e3, e4, ?_, ?_, ?_, ?_⟩
  · rw [e1]
    exact le_clamp _ _ _
  · rw [e1]
    exact clamp_le _ _ _ (by linarith)
  · rw [e2]
    exact le_clamp _ _ _
  · rw [e2]
    exact clamp_le _ _ _ (by linarith)

/-- Witness for C1 at the concrete inputs `cfg0`, `st0`, `e0`. -/
theorem panUpdate_writes_clamped_witness :
    (panUpdate cfg0 st0 e0).translate.x
      = clamp (st0.offset.x + e0.translationX)
          (-1 * (boundsFn st0 st0.scale).1) (boundsFn st0 st0.scale).1 ∧
    (panUpdate cfg0 st0 e0).translate.y
      = clamp (st0.offset.y + e0.translationY)
          (-1 * (boundsFn st0 st0.scale).2) (boundsFn st0 st0.scale).2 ∧
    (panUpdate cfg0 st0 e0).detectorTranslate.x
      = clamp (st0.offset.x + e0.translationX)
          (-1 * (boundsFn st0 st0.scale).1) (boundsFn st0 st0.scale).1 ∧
    (panUpdate cfg0 st0 e0).detectorTranslate.y
      = clamp (st0.offset.y + e0.translationY)
          (-1 * (boundsFn st0 st0.scale).2) (boundsFn st0 st0.scale).2 ∧
    -1 * (boundsFn st0 st0.scale).1 ≤ (panUpdate cfg0 st0 e0).translate.x ∧
    (panUpdate cfg0 st0 e0).translate.x ≤ (boundsFn st0 st0.scale).1 ∧
    -1 * (boundsFn st0 st0.scale).2 ≤ (panUpdate cfg0 st0 e0).translate.y ∧
    (panUpdate cfg0 st0 e0).translate.y ≤ (boundsFn st0 st0.scale).2 :=
  panUpdate_writes_clamped cfg0 st0 e0 rfl

/-- C3: at pan start the gesture is classified as a vertical pull exactly
when the start event is faster vertically than horizontally, the current
scale is `1`, and the gallery is not vertical. -/
theorem panStart_classifies_pull (cfg : ReflectionConfig)
    (st : GalleryState) (e : PanGestureEvent) (now : ℚ) :
    (panStart cfg st e now).isPullingVertical = true ↔
      (|e.velocityY| > |e.velocityX| ∧ st.scale = 1 ∧
        cfg.vertical = false) := by
  simp [panStart, Bool.and_eq_true, decide_eq_true_iff, Bool.not_eq_true',
    and_assoc]

/-- Witness for C3: `e0` pulls vertically at rest scale in the horizontal
gallery `cfg0`. -/
theorem panStart_classifies_pull_witness :
    (panStart cfg0 st0 e0 0).isPullingVertical = true :=
  (panStart_classifies_pull cfg0 st0 e0 0).mpr
    ⟨by norm_num [e0], rfl, rfl⟩

/-- C10: while a vertical pull is in progress a pan update writes only
`translate.y`, set to the raw gesture `translationY`; `translate.x`, the
detector transform, `scale` and `scroll` are all left unchanged. -/
theorem panUpdate_pulling_raw (cfg : ReflectionConfig) (st : GalleryState)
    (e : PanGestureEvent) (h : st.isPullingVertical = true) :
    (panUpdate cfg st e).translate.y = e.translationY ∧
    (panUpdate cfg st e).translate.x = st.translate.x ∧
    (panUpdate cfg st e).detectorTranslate = st.detectorTranslate ∧
    (panUpdate cfg st e).detectorScale = st.detectorScale ∧
    (panUpdate cfg st e).scale = st.scale ∧
    (panUpdate cfg st e).scroll = st.scroll ∧
    panUpdate cfg st e
      = { st with translate := ⟨st.translate.x, e.translationY⟩ } := by
  refine ⟨?_, ?_, ?_, ?_, ?_, ?_, ?_⟩ <;> simp [panUpdate, h]

/-- Witness for C10 at the pulling state `stPull` and event `e0`. -/
theorem panUpdate_pulling_raw_witness :
    (panUpdate cfg0 stPull e0).translate.y = e0.translationY ∧
    (panUpdate cfg0 stPull e0).translate.x = stPull.translate.x ∧
    (panUpdate cfg0 stPull e0).detectorTranslate
      = stPull.detectorTranslate ∧
    (panUpdate cfg0 stPull e0).detectorScale = stPull.detectorScale ∧
    (panUpdate cfg0 stPull e0).scale = stPull.scale ∧
    (panUpdate cfg0 stPull e0).scroll = stPull.scroll ∧
    panUpdate cfg0 stPull e0
      = { stPull with
          translate := ⟨stPull.translate.x, e0.translationY⟩ } :=
  panUpdate_pulling_raw cfg0 stPull e0 rfl

/-- C2: every retargeting operation gives the detector transform the same
targets as the rendered transform: `reset` settles both transforms at
`(toX, toY, toScale)`, a pan update outside a vertical pull writes equal
translations to both, and the decay started at pan end hands
`detectorTranslate.x`/`.y` the very decay configurations handed to
`translate.x`/`.y`. -/
theorem retarget_ops_sync_detector (cfg : ReflectionConfig)
    (st : GalleryState) (toX toY toScale : ℚ) (e : PanGestureEvent)
    (h : st.isPullingVertical = false) :
    ((reset st toX toY toScale).detectorTranslate
        = (reset st toX toY toScale).translate ∧
      (reset st toX toY toScale).detectorScale
        = (reset st toX toY toScale).scale ∧
      (reset st toX toY toScale).translate = ⟨toX, toY⟩ ∧
      (reset st toX toY toScale).scale = toScale) ∧
    (panUpdate cfg st e).detectorTranslate
      = (panUpdate cfg st e).translate ∧
    (∃ configX configY, panEndDecay st e
      = some ⟨configX, configY, configX, configY⟩) := by
  refine ⟨⟨rfl, rfl, rfl, rfl⟩, ?_, ?_⟩
  · simp [panUpdate, h]
  · refine ⟨⟨e.velocityX, -(boundsFn st st.scale).1,
      (boundsFn st st.scale).1⟩,
      ⟨e.velocityY, -(boundsFn st st.scale).2, (boundsFn st st.scale).2⟩,
      ?_⟩
    simp [panEndDecay, h]

/-- Witness for C2 at the concrete inputs `cfg0`, `st0`, `e0` and targets
`(4, 5, 2)`. -/
theorem retarget_ops_sync_detector_witness :
    ((reset st0 4 5 2).detectorTranslate = (reset st0 4 5 2).translate ∧
      (reset st0 4 5 2).detectorScale = (reset st0 4 5 2).scale ∧
      (reset st0 4 5 2).translate = ⟨4, 5⟩ ∧
      (reset st0 4 5 2).scale = 2) ∧
    (panUpdate cfg0 st0 e0).detectorTranslate
      = (panUpdate cfg0 st0 e0).translate ∧
    (∃ configX configY, panEndDecay st0 e0
      = some ⟨configX, configY, configX, configY⟩) :=
  retarget_ops_sync_detector cfg0 st0 4 5 2 e0 rfl

/-- C9: when the direction-adjusted target index clamps back to the
current `activeIndex`, `onSwipe` returns early and the whole state —
`fetchIndex`, `scroll`, `activeIndex`, `isScrolling`, `translate` and
`scale` included — is unchanged. -/
theorem onSwipe_noop (cfg : ReflectionConfig) (st : GalleryState)
    (direction : SwipeDirection)
    (h : swipeToIndex cfg st direction = st.activeIndex) :
    onSwipe cfg st direction = st := by
  simp [onSwipe, h]

/-- Witness for C9: swiping right (toward the previous item) at the first
item of the horizontal gallery `cfg0`. -/
theorem onSwipe_noop_witness :
    onSwipe cfg0 st0 SwipeDirection.right = st0 :=
  onSwipe_noop cfg0 st0 SwipeDirection.right (by decide)

/-- C4: `onSwipe` moves the active item by exactly one — `up`/`down`
adjust the index only in a vertical gallery and `left`/`right` only in a
horizontal one — with the target clamped to `[0, length - 1]`; when the
target differs from `activeIndex`, `fetchIndex` becomes the target,
scroll settles at `toIndex * itemSize`, `activeIndex` becomes the target
and the transform is reset to `(0, 0, minScale)`. -/
theorem onSwipe_moves_by_one (cfg : ReflectionConfig) (st : GalleryState)
    (direction : SwipeDirection)
    (h : swipeToIndex cfg st direction ≠ st.activeIndex) :
    swipeToIndex cfg st direction
      = clamp
          (st.activeIndex +
            match direction with
            | SwipeDirection.up => if cfg.vertical then 1 else 0
            | SwipeDirection.down => if cfg.vertical then -1 else 0
            | SwipeDirection.left => if cfg.vertical then 0 else 1
            | SwipeDirection.right => if cfg.vertical then 0 else -1)
          0 (cfg.length - 1) ∧
    (onSwipe cfg st direction).fetchIndex = swipeToIndex cfg st direction ∧
    (onSwipe cfg st direction).scroll
      = ((swipeToIndex cfg st direction : ℤ) : ℚ) * cfg.itemSize ∧
    (onSwipe cfg st direction).activeIndex
      = swipeToIndex cfg st direction ∧
    (onSwipe cfg st direction).isScrolling = false ∧
    (onSwipe cfg st direction).translate = ⟨0, 0⟩ ∧
    (onSwipe cfg st direction).scale = minScale := by
  refine ⟨?_, ?_, ?_, ?_, ?_, ?_, ?_⟩
  · cases direction <;> rcases hv : cfg.vertical <;>
      simp [swipeToIndex, hv, sub_eq_add_neg]
  all_goals simp [onSwipe, reset, h]

/-- Witness for C4: swiping left at the first item of the horizontal
gallery `cfg0` advances to item `1`. -/
theorem onSwipe_moves_by_one_witness :
    swipeToIndex cfg0 st0 SwipeDirection.left
      = clamp
          (st0.activeIndex +
            match SwipeDirection.left with
            | SwipeDirection.up => if cfg0.vertical then 1 else 0
            | SwipeDirection.down => if cfg0.vertical then -1 else 0
            | SwipeDirection.left => if cfg0.vertical then 0 else 1
            | SwipeDirection.right => if cfg0.vertical then 0 else -1)
          0 (cfg0.length - 1) ∧
    (onSwipe cfg0 st0 SwipeDirection.left).fetchIndex
      = swipeToIndex cfg0 st0 SwipeDirection.left ∧
    (onSwipe cfg0 st0 SwipeDirection.left).scroll
      = ((swipeToIndex cfg0 st0 SwipeDirection.left : ℤ) : ℚ)
          * cfg0.itemSize ∧
    (onSwipe cfg0 st0 SwipeDirection.left).activeIndex
      = swipeToIndex cfg0 st0 SwipeDirection.left ∧
    (onSwipe cfg0 st0 SwipeDirection.left).isScrolling = false ∧
    (onSwipe cfg0 st0 SwipeDirection.left).translate = ⟨0, 0⟩ ∧
    (onSwipe cfg0 st0 SwipeDirection.left).scale = minScale :=
  onSwipe_moves_by_one cfg0 st0 SwipeDirection.left (by decide)

/-- C7: the reaction driving `onVerticalPull` produces an invocation
exactly when the gallery is not vertical, the current scale is `1` and a
vertical pull is in progress; under any other combination it makes no
call. -/
theorem verticalPullReaction_condition (cfg : ReflectionConfig)
    (st : GalleryState) :
    (verticalPullReaction cfg st).isSome = true ↔
      (cfg.vertical = false ∧ st.scale = 1 ∧
        st.isPullingVertical = true) := by
  unfold verticalPullReaction
  split <;> simp_all [Bool.not_eq_true]

/-- Witness for C7: the reaction fires at the pulling state `stPull` in
the horizontal gallery `cfg0`. -/
theorem verticalPullReaction_condition_witness :
    (verticalPullReaction cfg0 stPull).isSome = true :=
  (verticalPullReaction_condition cfg0 stPull).mpr ⟨rfl, rfl, rfl⟩

/-- C5: `snapToScrollPosition` settles scroll at the `snapPoint`-selected
target, which is always one of the three candidate offsets (previous,
current and next item, the neighbours clamped to `[0, length - 1]`);
`fetchIndex` is left unchanged when the target is the current item's
offset and becomes `activeIndex + 1` or `activeIndex - 1` otherwise. -/
theorem snapToScrollPosition_targets (cfg : ReflectionConfig)
    (st : GalleryState) (e : PanGestureEvent) :
    (snapToScrollPosition cfg st e).scroll = snapTarget cfg st e ∧
    snapTarget cfg st e ∈ snapCandidates cfg st ∧
    ((snapTarget cfg st e = cfg.itemSize * (st.activeIndex : ℚ) ∧
        (snapToScrollPosition cfg st e).fetchIndex = st.fetchIndex) ∨
      (snapTarget cfg st e ≠ cfg.itemSize * (st.activeIndex : ℚ) ∧
        ((snapToScrollPosition cfg st e).fetchIndex
            = st.activeIndex + 1 ∨
          (snapToScrollPosition cfg st e).fetchIndex
            = st.activeIndex - 1))) := by
  refine ⟨?_, ?_, ?_⟩
  · by_cases hc : snapTarget cfg st e = cfg.itemSize * (st.activeIndex : ℚ)
    · simp [snapToScrollPosition, reset, hc]
    · simp [snapToScrollPosition, reset, hc]
  · unfold snapTarget snapCandidates
    exact snapPoint_mem _ _ _ _
  · by_cases hc : snapTarget cfg st e = cfg.itemSize * (st.activeIndex : ℚ)
    · exact Or.inl ⟨hc, by simp [snapToScrollPosition, hc]⟩
    · refine Or.inr ⟨hc, ?_⟩
      have hfe : (snapToScrollPosition cfg st e).fetchIndex
          = st.activeIndex +
              (if snapTarget cfg st e
                  = cfg.itemSize *
                      ((clamp (st.activeIndex + 1) 0 (cfg.length - 1) : ℤ)
                        : ℚ)
                then 1 else -1) := by
        simp [snapToScrollPosition, reset, hc]
      rw [hfe]
      split
      · exact Or.inl rfl
      · exact Or.inr (by omega)

/-- Witness for C5 at the concrete inputs `cfg0`, `st0`, `e0`. -/
theorem snapToScrollPosition_targets_witness :
    (snapToScrollPosition cfg0 st0 e0).scroll = snapTarget cfg0 st0 e0 ∧
    snapTarget cfg0 st0 e0 ∈ snapCandidates cfg0 st0 ∧
    ((snapTarget cfg0 st0 e0 = cfg0.itemSize * (st0.activeIndex : ℚ) ∧
        (snapToScrollPosition cfg0 st0 e0).fetchIndex = st0.fetchIndex) ∨
      (snapTarget cfg0 st0 e0 ≠ cfg0.itemSize * (st0.activeIndex : ℚ) ∧
        ((snapToScrollPosition cfg0 st0 e0).fetchIndex
            = st0.activeIndex + 1 ∨
          (snapToScrollPosition cfg0 st0 e0).fetchIndex
            = st0.activeIndex - 1))) :=
  snapToScrollPosition_targets cfg0 st0 e0

/-- C6: the double-tap target scale is `minScale` when the current scale
has reached `0.8 * maxScale` and `maxScale` otherwise, and the
translation handed to `reset` is the `pinchTransform` result clamped
componentwise to `boundsFn(toScale)`, so the settled post-double-tap
translation is bounded. -/
theorem doubleTap_bounded_reset (cfg : ReflectionConfig)
    (st : GalleryState) (e : TapGestureEvent) :
    (doubleTapEnd cfg st e).scale
      = (if cfg.maxScale * (8 / 10) ≤ st.scale then minScale
          else cfg.maxScale) ∧
    (doubleTapEnd cfg st e).translate.x
      = clamp
          (pinchTransform (doubleTapToScale cfg st) st.scale
            ⟨e.x - st.rootSize.width / 2, e.y - st.rootSize.height / 2⟩
            ⟨0, 0⟩ ⟨st.translate.x, st.translate.y⟩).x
          (-1 * (boundsFn st (doubleTapToScale cfg st)).1)
          (boundsFn st (doubleTapToScale cfg st)).1 ∧
    (doubleTapEnd cfg st e).translate.y
      = clamp
          (pinchTransform (doubleTapToScale cfg st) st.scale
            ⟨e.x - st.rootSize.width / 2, e.y - st.rootSize.height / 2⟩
            ⟨0, 0⟩ ⟨st.translate.x, st.translate.y⟩).y
          (-1 * (boundsFn st (doubleTapToScale cfg st)).2)
          (boundsFn st (doubleTapToScale cfg st)).2 ∧
    |(doubleTapEnd cfg st e).translate.x|
      ≤ (boundsFn st (doubleTapToScale cfg st)).1 ∧
    |(doubleTapEnd cfg st e).translate.y|
      ≤ (boundsFn st (doubleTapToScale cfg st)).2 := by
  have hbx := boundsFn_fst_nonneg st (doubleTapToScale cfg st)
  have hby := boundsFn_snd_nonneg st (doubleTapToScale cfg st)
  have e1 : (doubleTapEnd cfg st e).translate.x
      = clamp
          (pinchTransform (doubleTapToScale cfg st) st.scale
            ⟨e.x - st.rootSize.width / 2, e.y - st.rootSize.height / 2⟩
            ⟨0, 0⟩ ⟨st.translate.x, st.translate.y⟩).x
          (-1 * (boundsFn st (doubleTapToScale cfg st)).1)
          (boundsFn st (doubleTapToScale cfg st)).1 := by
    simp [doubleTapEnd, reset]
  have e2 : (doubleTapEnd cfg st e).translate.y
      = clamp
          (pinchTransform (doubleTapToScale cfg st) st.scale
            ⟨e.x - st.rootSize.width / 2, e.y - st.rootSize.height / 2⟩
            ⟨0, 0⟩ ⟨st.translate.x, st.translate.y⟩).y
          (-1 * (boundsFn st (doubleTapToScale cfg st)).2)
          (boundsFn st (doubleTapToScale cfg st)).2 := by
    simp [doubleTapEnd, reset]
  refine ⟨?_, e1, e2, ?_, ?_⟩
  · simp [doubleTapEnd, reset, doubleTapToScale, ge_iff_le]
  · rw [e1, abs_le]
    constructor
    · have := le_clamp
        (pinchTransform (doubleTapToScale cfg st) st.scale
          ⟨e.x - st.rootSize.width / 2, e.y - st.rootSize.height / 2⟩
          ⟨0, 0⟩ ⟨st.translate.x, st.translate.y⟩).x
        (-1 * (boundsFn st (doubleTapToScale cfg st)).1)
        (boundsFn st (doubleTapToScale cfg st)).1
      linarith
    · exact clamp_le _ _ _ (by linarith)
  · rw [e2, abs_le]
    constructor
    · have := le_clamp
        (pinchTransform (doubleTapToScale cfg st) st.scale
          ⟨e.x - st.rootSize.width / 2, e.y - st.rootSize.height / 2⟩
          ⟨0, 0⟩ ⟨st.translate.x, st.translate.y⟩).y
        (-1 * (boundsFn st (doubleTapToScale cfg st)).2)
        (boundsFn st (doubleTapToScale cfg st)).2
      linarith
    · exact clamp_le _ _ _ (by linarith)

end Gallery
